import Mathlib

/-! Verification of the device-side streaming client: `reader.cpp` (class
`DeviceReader`, TCP variant with retry and pacing).  The state machine of the
main loop, the two request kinds (init_map on port 18001, fetch_gps on port
18002), the ad-hoc `session_id` extraction, the 4-byte length field written
before each fetch_gps request, the drop policy, the clean-drain exit and the
60-second safety exit are translated below as executable definitions; network
effects (socket creation, connect, non-blocking recv, wall-clock time) are
supplied per loop iteration by an `Env` record.
-/

/-- Log-record vocabulary of the outcome log `data/reader.txt`.  The spec's
LogRecord kinds include a `Timeout` kind; the translation of the code appends
exactly the entries `reader.cpp` writes with `std::ofstream log(LOG_FILE, app)`. -/
inductive LogEntry where
  | started
  | sessionInit (sid : String)
  | frameResult (idx : Nat) (payload : String)
  | frameDropped (idx : Nat)
  | timeout (elapsedSec : Nat) (framesRemaining : Nat)
deriving DecidableEq

/-- Observable actions of one loop iteration: wire sends and console
diagnostics (`std::cout` / `std::cerr`). -/
inductive Ev where
  | initSent (wire : String)
  | initSockFail
  | initConnFail
  | initWait
  | fetchSent (idx : Nat) (wire : String)
  | fetchConnFail (idx : Nat)
  | frameDrop (idx : Nat)
deriving DecidableEq

/-- Why the main loop's `while (true)` breaks. -/
inductive ExitReason where
  | cleanDrain
  | watchdog (elapsedSec : Nat)
deriving DecidableEq

/-- The mutable fields of `DeviceReader`, plus instrumentation: `fetch_opens` /
`fetch_closes` count `socket()` / `close()` calls on the fetch_gps channel, and
`pending_fetch` records the frame index of the outstanding fetch_gps exchange.
The formatted `std::to_string` images of the constructor's doubles are carried
as strings. -/
structure ReaderState where
  session_id : String
  localizer_ready : Bool
  current_frame_index : Nat
  stream_files : List String
  init_map_requested : Bool
  init_open : Bool
  fetch_open : Bool
  fetch_opens : Nat
  fetch_closes : Nat
  pending_fetch : Option Nat
  lat_s : String
  lng_s : String
  meters_s : String
  log : List LogEntry
deriving DecidableEq

/-- Environment of one loop iteration: whether the 1-second pacing tick fired,
whether `socket()` / `connect()` succeed on each channel, what the non-blocking
`recv` yields on each channel (`none` models EAGAIN or an error), and the
wall-clock seconds since `start_time` seen by the safety check. -/
structure Env where
  tick : Bool
  initSockOk : Bool
  initConnOk : Bool
  fetchConnOk : Bool
  initRecv : Option String
  fetchRecv : Option String
  elapsedSec : Nat
deriving DecidableEq

/-- State after the constructor: empty session, localizer not ready, cursor 0,
no request issued, no socket open, log truncated to the start line. -/
def initState (files : List String) (latS lngS metersS : String) : ReaderState :=
  { session_id := "", localizer_ready := false, current_frame_index := 0,
    stream_files := files, init_map_requested := false, init_open := false,
    fetch_open := false, fetch_opens := 0, fetch_closes := 0,
    pending_fetch := none, lat_s := latS, lng_s := lngS, meters_s := metersS,
    log := [LogEntry.started] }

/-- ASCII digit for `d < 10`. -/
def digitChar (d : Nat) : Char := Char.ofNat (48 + d)

/-- Helper for `decDigits`, structurally recursive on a fuel argument so that
it reduces inside the kernel; any fuel at least `n` gives the digits of `n`. -/
def decDigitsF : Nat → Nat → List Char
  | 0, n => [digitChar n]
  | fuel + 1, n =>
    if n < 10 then [digitChar n]
    else decDigitsF fuel (n / 10) ++ [digitChar (n % 10)]

/-- Decimal digits of `n`, most significant first: `std::to_string` on a
non-negative integer. -/
def decDigits (n : Nat) : List Char := decDigitsF n n

/-- `std::string::resize(n, c)`: truncate to `n` characters, or append copies
of `c` up to length `n`. -/
def listResize (l : List Char) (n : Nat) (c : Char) : List Char :=
  if n ≤ l.length then l.take n else l ++ List.replicate (n - l.length) c

/-- `size_str` of `sendFetchGpsRequest`: the decimal byte length of the
payload, resized to exactly 4 characters with spaces appended. -/
def sizeStr4 (byteLen : Nat) : List Char := listResize (decDigits byteLen) 4 ' '

/-- The fetch_gps JSON payload built in `sendFetchGpsRequest`. -/
def fetchRequest (sid path : String) : String :=
  "\x7b\"session_id\":\"" ++ sid ++ "\",\"image_path\":\"" ++ path ++ "\"\x7d"

/-- The init_map JSON payload built in `sendInitMapRequest`. -/
def initRequest (latS lngS metersS : String) : String :=
  "\x7b\"lat\": " ++ latS ++ ",\"lng\": " ++ lngS ++ ",\"meters\": " ++
    metersS ++ ",\"mode\": \"device\"\x7d"

/-- Bytes put on the fetch_gps socket: the two consecutive `send` calls write
the 4-character size field and then the JSON payload. -/
def fetchWire (sid path : String) : String :=
  String.mk (sizeStr4 (fetchRequest sid path).utf8ByteSize) ++ fetchRequest sid path

/-- Does `needle` occur at the head of `hay`? -/
def leadsWith : List Char → List Char → Bool
  | [], _ => true
  | _ :: _, [] => false
  | a :: as, b :: bs => a == b && leadsWith as bs

/-- `std::string::find`: index of the first occurrence of `needle`. -/
def findSub (needle : List Char) : List Char → Option Nat
  | [] => if needle.isEmpty then some 0 else none
  | c :: rest =>
    if leadsWith needle (c :: rest) then some 0
    else match findSub needle rest with
         | some i => some (i + 1)
         | none => none

/-- `std::string::find(c, start)`: index of the first occurrence of `c` at or
after position `start`. -/
def findCharFrom (c : Char) (l : List Char) (start : Nat) : Option Nat :=
  match findSub [c] (l.drop start) with
  | some i => some (start + i)
  | none => none

/-- `std::string::substr(start, len)`. -/
def substr (l : List Char) (start len : Nat) : List Char := (l.drop start).take len

/-- The 15-character needle `checkInitMapResponse` searches for. -/
def sessionKey : List Char := "\"session_id\": \"".toList

/-- The ad-hoc extraction in `checkInitMapResponse`: find the literal key,
skip its 15 characters, take everything up to the next double quote.  `none`
when the key or the closing quote is missing. -/
def extractSessionId (resp : String) : Option String :=
  match findSub sessionKey resp.toList with
  | none => none
  | some i =>
    match findCharFrom '"' resp.toList (i + 15) with
    | none => none
    | some e => some (String.mk (substr resp.toList (i + 15) (e - (i + 15))))

/-- `checkInitMapResponse`: returns immediately when no init socket is open;
on data, assigns whatever the extraction produced (or leaves `session_id`
unchanged when extraction fails), and only when the member ends up non-empty
does it set readiness, close the channel and append the session log line. -/
def checkInitMapResponse (r : Option String) (s : ReaderState) : ReaderState :=
  if s.init_open = false then s
  else
    match r with
    | none => s
    | some resp =>
      let sid := match extractSessionId resp with
                 | some v => v
                 | none => s.session_id
      if sid = "" then { s with session_id := sid }
      else { s with session_id := sid, localizer_ready := true,
                    init_open := false,
                    log := s.log ++ [LogEntry.sessionInit sid] }

/-- `checkFetchGpsResponse`: `recv` on a closed or never-opened descriptor
yields an error (modelled by delivering `none`); on data, set readiness, close
the socket and append `Frame <current_frame_index-1>: <payload>`. -/
def checkFetchGpsResponse (r : Option String) (s : ReaderState) : ReaderState :=
  match (if s.fetch_open then r else none) with
  | none => s
  | some resp =>
    { s with localizer_ready := true, fetch_open := false,
             fetch_closes := s.fetch_closes + 1, pending_fetch := none,
             log := s.log ++ [LogEntry.frameResult (s.current_frame_index - 1) resp] }

/-- `sendInitMapRequest`: a fresh socket each attempt; on `socket()` failure
return with the request flag untouched; on `connect` failure close the socket
and clear `init_map_requested` so the next tick retries; on success the bare
JSON payload is sent with no length field. -/
def sendInitMapRequest (e : Env) (s : ReaderState) : ReaderState × List Ev :=
  if e.initSockOk = false then
    ({ s with init_open := false }, [Ev.initSockFail])
  else if e.initConnOk = false then
    ({ s with init_open := false, init_map_requested := false }, [Ev.initConnFail])
  else
    ({ s with init_open := true, init_map_requested := true },
     [Ev.initSent (initRequest s.lat_s s.lng_s s.meters_s)])

/-- `sendFetchGpsRequest`: guard on an exhausted catalog; consume the frame at
the cursor and advance the cursor before any network activity; on `connect`
failure close the fresh socket and return (the frame is silently skipped,
`std::cerr` only); on success send the size field plus payload, remember the
socket and clear readiness. -/
def sendFetchGpsRequest (e : Env) (s : ReaderState) : ReaderState × List Ev :=
  if s.stream_files.length ≤ s.current_frame_index then (s, [])
  else
    let idx := s.current_frame_index
    let path := s.stream_files.getD idx ("")
    let s1 := { s with current_frame_index := idx + 1 }
    if e.fetchConnOk = false then
      ({ s1 with fetch_opens := s1.fetch_opens + 1,
                 fetch_closes := s1.fetch_closes + 1 },
       [Ev.fetchConnFail idx])
    else
      ({ s1 with fetch_opens := s1.fetch_opens + 1, fetch_open := true,
                 localizer_ready := false, pending_fetch := some idx },
       [Ev.fetchSent idx (fetchWire s.session_id path)])

/-- Response polling at the top of each loop iteration: while the session is
unset poll the init channel, otherwise poll the fetch channel when a response
is awaited. -/
def pollPhase (e : Env) (s : ReaderState) : ReaderState :=
  if s.session_id = "" then checkInitMapResponse e.initRecv s
  else if s.localizer_ready = false then checkFetchGpsResponse e.fetchRecv s
  else s

/-- First block of the tick body: issue the init request when no session
exists and none is outstanding, else just narrate waiting. -/
def tickInit (e : Env) (s : ReaderState) : ReaderState × List Ev :=
  if s.session_id = "" then
    if s.init_map_requested = false then sendInitMapRequest e s
    else (s, [Ev.initWait])
  else (s, [])

/-- Second block of the tick body: when a session exists and frames remain,
either send the frame at the cursor (localizer ready) or drop it with a log
entry (localizer busy). -/
def tickFrame (e : Env) (s : ReaderState) : ReaderState × List Ev :=
  if s.session_id ≠ "" ∧ s.current_frame_index < s.stream_files.length then
    if s.localizer_ready then sendFetchGpsRequest e s
    else
      ({ s with current_frame_index := s.current_frame_index + 1,
                log := s.log ++ [LogEntry.frameDropped s.current_frame_index] },
       [Ev.frameDrop s.current_frame_index])
  else (s, [])

/-- The 1-second tick body: the init block followed by the send-or-drop
block. -/
def tickBody (e : Env) (s : ReaderState) : ReaderState × List Ev :=
  let a := tickInit e s
  let b := tickFrame e a.1
  (b.1, a.2 ++ b.2)

/-- Loop-exit tests at the bottom of each iteration: clean drain first, then
the 60-second safety bound (which only writes to `std::cout`). -/
def exitCheck (e : Env) (s2 : ReaderState) : Option ExitReason :=
  if s2.session_id ≠ "" ∧ s2.stream_files.length ≤ s2.current_frame_index ∧
      s2.localizer_ready = true then
    some ExitReason.cleanDrain
  else if 60 < e.elapsedSec then some (ExitReason.watchdog e.elapsedSec)
  else none

/-- One iteration of the `while (true)` body of `DeviceReader::run`. -/
def step (e : Env) (s : ReaderState) : ReaderState × List Ev × Option ExitReason :=
  let p := pollPhase e s
  let b := if e.tick then tickBody e p else (p, [])
  (b.1, b.2, exitCheck e b.1)

/-- Iterate `step` over a schedule of environments, stopping at the first
iteration whose exit test fires. -/
def runLoop : List Env → ReaderState → ReaderState × List Ev × Option ExitReason
  | [], s => (s, [], none)
  | e :: es, s =>
    match step e s with
    | (s', evs, some r) => (s', evs, some r)
    | (s', evs, none) =>
      let t := runLoop es s'
      (t.1, evs ++ t.2.1, t.2.2)

/-- `main`: construct the reader, run the loop, `return 0` unconditionally. -/
def mainExitCode (envs : List Env) (files : List String)
    (latS lngS metersS : String) : Nat :=
  let _ := runLoop envs (initState files latS lngS metersS)
  0

/-- States reachable from some constructor state by loop iterations. -/
inductive Reachable : ReaderState → Prop where
  | init : ∀ files latS lngS metersS, Reachable (initState files latS lngS metersS)
  | step : ∀ s e, Reachable s → Reachable (step e s).1

/-- Number of `Timeout` records in a log. -/
def timeoutCount (log : List LogEntry) : Nat :=
  log.countP fun en => match en with
    | LogEntry.timeout _ _ => true
    | _ => false

/-- Is some `fetchSent` event in the list? -/
def sentFetchIn (evs : List Ev) : Bool :=
  evs.any fun ev => match ev with
    | Ev.fetchSent _ _ => true
    | _ => false

/-- Is some `initSent` event in the list? -/
def sentInitIn (evs : List Ev) : Bool :=
  evs.any fun ev => match ev with
    | Ev.initSent _ => true
    | _ => false

/-- The frame index a send-or-drop decision consumed, if the event is one. -/
def decisionIdx (ev : Ev) : Option Nat :=
  match ev with
  | Ev.fetchSent i _ => some i
  | Ev.fetchConnFail i => some i
  | Ev.frameDrop i => some i
  | _ => none

/-- Did this iteration make a send-or-drop decision: the tick fired, the
session exists after polling, and frames remain. -/
def DecisionTick (e : Env) (s : ReaderState) : Prop :=
  e.tick = true ∧ (pollPhase e s).session_id ≠ "" ∧
    s.current_frame_index < s.stream_files.length

instance (e : Env) (s : ReaderState) : Decidable (DecisionTick e s) :=
  inferInstanceAs (Decidable (e.tick = true ∧ (pollPhase e s).session_id ≠ "" ∧
    s.current_frame_index < s.stream_files.length))

/-- Two-frame catalog used by the concrete runs below. -/
def trFiles : List String := ["a.jpg", "b.jpg"]

/-- Constructor state for the concrete runs. -/
def tS0 : ReaderState := initState trFiles ("50.416200") ("30.890600") ("1000")

/-- Iteration environment: tick fires, all connects succeed, no data arrives. -/
def eInit : Env :=
  { tick := true, initSockOk := true, initConnOk := true, fetchConnOk := true,
    initRecv := none, fetchRecv := none, elapsedSec := 0 }

/-- After the first tick: the init request has been sent and is outstanding. -/
def tS1 : ReaderState := (step eInit tS0).1

/-- A well-formed init response. -/
def sessResp : String := "\x7b\"session_id\": \"s1\"\x7d"

/-- Environment delivering the init response on a tick. -/
def eSess : Env := { eInit with initRecv := some sessResp, elapsedSec := 1 }

/-- After the second tick: session set, frame 0 sent and outstanding. -/
def tS2 : ReaderState := (step eSess tS1).1

/-- Environment for a tick with no fetch response yet. -/
def eDrop : Env := { eInit with elapsedSec := 2 }

/-- After the third tick: frame 1 dropped while frame 0 is still outstanding. -/
def tS3 : ReaderState := (step eDrop tS2).1

/-- The eventual fetch_gps response for frame 0. -/
def gpsResp : String := "\x7b\"success\": true\x7d"

/-- Environment delivering the fetch response between ticks. -/
def eResp : Env :=
  { tick := false, initSockOk := true, initConnOk := true, fetchConnOk := true,
    initRecv := none, fetchRecv := some gpsResp, elapsedSec := 2 }

/-- Any two sufficient fuels give the same digit list. -/
theorem decDigitsF_fuel : ∀ f g n, n ≤ f → n ≤ g → decDigitsF f n = decDigitsF g n := by
  intro f
  induction f with
  | zero =>
    intro g n hf _
    interval_cases n
    cases g with
    | zero => rfl
    | succ g => simp [decDigitsF]
  | succ f ih =>
    intro g n hf hg
    cases g with
    | zero =>
      interval_cases n
      simp [decDigitsF]
    | succ g =>
      by_cases h10 : n < 10
      · simp [decDigitsF, h10]
      · have hd : n / 10 < n := Nat.div_lt_self (by omega) (by omega)
        simp only [decDigitsF, if_neg h10]
        rw [ih g (n / 10) (by omega) (by omega)]

/-- The recursion `decDigits` implements. -/
theorem decDigits_step (n : Nat) :
    decDigits n = if n < 10 then [digitChar n]
                  else decDigits (n / 10) ++ [digitChar (n % 10)] := by
  by_cases h10 : n < 10
  · simp only [decDigits, if_pos h10]
    cases n with
    | zero => rfl
    | succ m => simp [decDigitsF, h10]
  · have hpos : 0 < n := by omega
    have hd : n / 10 < n := Nat.div_lt_self hpos (by omega)
    simp only [decDigits, if_neg h10]
    obtain ⟨m, rfl⟩ : ∃ m, n = m + 1 := ⟨n - 1, by omega⟩
    simp only [decDigitsF, if_neg h10]
    rw [decDigitsF_fuel m ((m + 1) / 10) ((m + 1) / 10) (by omega) (by omega)]

/-- Numbers below `10 ^ k` print with at most `k` digits. -/
theorem decDigits_length_le : ∀ k n, 1 ≤ k → n < 10 ^ k → (decDigits n).length ≤ k := by
  intro k
  induction k with
  | zero => omega
  | succ k ih =>
    intro n _ hlt
    rw [decDigits_step n]
    by_cases h10 : n < 10
    · simp [h10]
    · have hk : 1 ≤ k := by
        by_contra hk0
        have : k = 0 := by omega
        subst this
        simp at hlt
        omega
      have hdiv : n / 10 < 10 ^ k := by
        rw [Nat.div_lt_iff_lt_mul (by omega)]
        calc n < 10 ^ (k + 1) := hlt
          _ = 10 ^ k * 10 := by ring
      have := ih (n / 10) hk hdiv
      simp [h10, List.length_append]
      omega

/-- Numbers at least `10 ^ k` print with more than `k` digits. -/
theorem decDigits_length_gt : ∀ k n, 10 ^ k ≤ n → k < (decDigits n).length := by
  intro k
  induction k with
  | zero =>
    intro n _
    rw [decDigits_step n]
    by_cases h10 : n < 10 <;> simp [h10]
  | succ k ih =>
    intro n hle
    have h10 : ¬n < 10 := by
      have : 10 ≤ 10 ^ (k + 1) := by
        calc 10 = 10 ^ 1 := by ring
          _ ≤ 10 ^ (k + 1) := Nat.pow_le_pow_right (by omega) (by omega)
      omega
    rw [decDigits_step n]
    have hdiv : 10 ^ k ≤ n / 10 := by
      rw [Nat.le_div_iff_mul_le (by omega)]
      calc 10 ^ k * 10 = 10 ^ (k + 1) := by ring
        _ ≤ n := hle
    have := ih (n / 10) hdiv
    simp [h10, List.length_append]
    omega

/-- For payload lengths up to 9999 the 4-character size field is the decimal
digits of the length followed by space padding. -/
theorem sizeStr4_of_le (n : Nat) (h : n ≤ 9999) :
    sizeStr4 n = decDigits n ++ List.replicate (4 - (decDigits n).length) ' ' := by
  have hlen : (decDigits n).length ≤ 4 := decDigits_length_le 4 n (by omega) (by omega)
  unfold sizeStr4 listResize
  by_cases h4 : 4 ≤ (decDigits n).length
  · have h4' : (decDigits n).length = 4 := by omega
    rw [if_pos h4, List.take_of_length_le hlen, h4']
    simp
  · rw [if_neg h4]

/-- For payload lengths of 10000 or more the 4-character size field is the
truncation of the decimal digits to the first 4, which drops digits. -/
theorem sizeStr4_of_ge (n : Nat) (h : 10000 ≤ n) :
    sizeStr4 n = (decDigits n).take 4 ∧ sizeStr4 n ≠ decDigits n := by
  have hlen : 4 < (decDigits n).length := by
    have := decDigits_length_gt 4 n (by omega)
    omega
  have htake : sizeStr4 n = (decDigits n).take 4 := by
    unfold sizeStr4 listResize
    simp [Nat.le_of_lt hlen]
  refine ⟨htake, ?_⟩
  intro hcontra
  have : (sizeStr4 n).length = (decDigits n).length := by rw [hcontra]
  rw [htake] at this
  simp [List.length_take] at this
  omega

/-- `countP` distributes over append. -/
theorem timeoutCount_append (l l' : List LogEntry) :
    timeoutCount (l ++ l') = timeoutCount l + timeoutCount l' :=
  List.countP_append _ _ _

/-- A session line is not a timeout line. -/
theorem timeoutCount_sessionInit (sid : String) :
    timeoutCount [LogEntry.sessionInit sid] = 0 := rfl

/-- A frame-result line is not a timeout line. -/
theorem timeoutCount_frameResult (i : Nat) (p : String) :
    timeoutCount [LogEntry.frameResult i p] = 0 := rfl

/-- A dropped-frame line is not a timeout line. -/
theorem timeoutCount_frameDropped (i : Nat) :
    timeoutCount [LogEntry.frameDropped i] = 0 := rfl

/-- Inductive invariant of the main loop: the cursor stays within the catalog;
fetch-socket closes never outrun opens and at most one fetch socket is open,
being open exactly when an exchange is pending and only while readiness is
false; before the handshake nothing fetch-related has happened; once the
session is set the init channel is closed; and no timeout line is ever in the
log. -/
def LoopInv (s : ReaderState) : Prop :=
  s.current_frame_index ≤ s.stream_files.length ∧
  s.fetch_closes ≤ s.fetch_opens ∧
  s.fetch_opens ≤ s.fetch_closes + 1 ∧
  (s.fetch_open = true ↔ s.fetch_opens = s.fetch_closes + 1) ∧
  (s.localizer_ready = true → s.fetch_open = false) ∧
  s.pending_fetch.isSome = s.fetch_open ∧
  (s.session_id = "" → s.localizer_ready = false ∧ s.fetch_open = false) ∧
  (s.session_id ≠ "" → s.init_open = false) ∧
  timeoutCount s.log = 0

/-- The constructor state satisfies the invariant. -/
theorem inv_initState (files : List String) (latS lngS metersS : String) :
    LoopInv (initState files latS lngS metersS) := by
  refine ⟨?_, ?_, ?_, ?_, ?_, ?_, ?_, ?_, ?_⟩ <;> simp [initState, timeoutCount]

/-- Polling the init channel preserves the invariant when no session exists. -/
theorem inv_checkInitMapResponse (r : Option String) (s : ReaderState)
    (hinv : LoopInv s) (hs : s.session_id = "") :
    LoopInv (checkInitMapResponse r s) := by
  obtain ⟨h1, h2, h3, h4, h5, h6, h7, h8, h9⟩ := hinv
  obtain ⟨hrdy, hfo⟩ := h7 hs
  unfold checkInitMapResponse
  split
  · exact ⟨h1, h2, h3, h4, h5, h6, h7, h8, h9⟩
  split
  · exact ⟨h1, h2, h3, h4, h5, h6, h7, h8, h9⟩
  rename_i resp
  dsimp only
  split
  · rename_i hsid
    exact ⟨h1, h2, h3, h4, h5, h6, fun _ => ⟨hrdy, hfo⟩, fun hne => absurd hsid hne, h9⟩
  · rename_i hsid
    refine ⟨h1, h2, h3, h4, fun _ => hfo, h6, fun hemp => absurd hemp hsid, fun _ => rfl, ?_⟩
    simp only [timeoutCount_append, timeoutCount_sessionInit, h9]

/-- Polling the fetch channel preserves the invariant. -/
theorem inv_checkFetchGpsResponse (r : Option String) (s : ReaderState)
    (hinv : LoopInv s) : LoopInv (checkFetchGpsResponse r s) := by
  unfold checkFetchGpsResponse
  split
  · exact hinv
  rename_i resp hsome
  have hf : s.fetch_open = true := by
    by_cases hf : s.fetch_open = true
    · exact hf
    · simp [Bool.not_eq_true] at hf
      simp [hf] at hsome
  obtain ⟨h1, h2, h3, h4, h5, h6, h7, h8, h9⟩ := hinv
  have hoc : s.fetch_opens = s.fetch_closes + 1 := h4.mp hf
  have hsess : s.session_id ≠ "" := by
    intro hs
    have := (h7 hs).2
    simp [hf] at this
  refine ⟨?_, ?_, ?_, ?_, ?_, ?_, ?_, ?_, ?_⟩ <;> dsimp only
  · exact h1
  · omega
  · omega
  · simp only [Bool.false_eq_true, false_iff]
    omega
  · intro _
    rfl
  · rfl
  · intro hemp
    exact absurd hemp hsess
  · exact h8
  · simp only [timeoutCount_append, timeoutCount_frameResult, h9]

/-- Issuing the init request (in any of its three outcomes) preserves the
invariant while no session exists. -/
theorem inv_sendInitMapRequest (e : Env) (s : ReaderState)
    (hinv : LoopInv s) (hs : s.session_id = "") :
    LoopInv (sendInitMapRequest e s).1 := by
  obtain ⟨h1, h2, h3, h4, h5, h6, h7, h8, h9⟩ := hinv
  unfold sendInitMapRequest
  split
  · exact ⟨h1, h2, h3, h4, h5, h6, h7, fun hne => absurd hs hne, h9⟩
  split
  · exact ⟨h1, h2, h3, h4, h5, h6, h7, fun hne => absurd hs hne, h9⟩
  · exact ⟨h1, h2, h3, h4, h5, h6, h7, fun hne => absurd hs hne, h9⟩

/-- Issuing a fetch request (in either of its outcomes) preserves the
invariant when the localizer is ready. -/
theorem inv_sendFetchGpsRequest (e : Env) (s : ReaderState)
    (hinv : LoopInv s) (hr : s.localizer_ready = true) :
    LoopInv (sendFetchGpsRequest e s).1 := by
  obtain ⟨h1, h2, h3, h4, h5, h6, h7, h8, h9⟩ := hinv
  have hfo : s.fetch_open = false := h5 hr
  have hoc : s.fetch_opens = s.fetch_closes := by
    by_cases hc : s.fetch_opens = s.fetch_closes + 1
    · have := h4.mpr hc
      simp [hfo] at this
    · omega
  have hsess : s.session_id ≠ "" := by
    intro hemp
    have := (h7 hemp).1
    simp [hr] at this
  unfold sendFetchGpsRequest
  split
  · exact ⟨h1, h2, h3, h4, h5, h6, h7, h8, h9⟩
  rename_i hcur
  dsimp only
  split
  · refine ⟨?_, ?_, ?_, ?_, ?_, ?_, ?_, ?_, ?_⟩ <;> dsimp only
    · omega
    · omega
    · omega
    · rw [hfo]
      simp only [Bool.false_eq_true, false_iff]
      omega
    · intro _
      exact hfo
    · exact h6
    · intro hemp
      exact absurd hemp hsess
    · exact h8
    · exact h9
  · refine ⟨?_, ?_, ?_, ?_, ?_, ?_, ?_, ?_, ?_⟩ <;> dsimp only
    · omega
    · omega
    · omega
    · simp only [true_iff]
      omega
    · simp only [Bool.false_eq_true, false_implies]
    · rfl
    · intro hemp
      exact absurd hemp hsess
    · exact h8
    · exact h9

/-- The init block of the tick preserves the invariant. -/
theorem inv_tickInit (e : Env) (s : ReaderState) (hinv : LoopInv s) :
    LoopInv (tickInit e s).1 := by
  unfold tickInit
  split
  · rename_i hs
    split
    · exact inv_sendInitMapRequest e s hinv hs
    · exact hinv
  · exact hinv

/-- The send-or-drop block of the tick preserves the invariant. -/
theorem inv_tickFrame (e : Env) (s : ReaderState) (hinv : LoopInv s) :
    LoopInv (tickFrame e s).1 := by
  unfold tickFrame
  split
  · rename_i hguard
    split
    · rename_i hr
      exact inv_sendFetchGpsRequest e s hinv hr
    · obtain ⟨h1, h2, h3, h4, h5, h6, h7, h8, h9⟩ := hinv
      refine ⟨?_, ?_, ?_, ?_, ?_, ?_, ?_, ?_, ?_⟩ <;> dsimp only
      · omega
      · exact h2
      · exact h3
      · exact h4
      · exact h5
      · exact h6
      · intro hemp
        exact absurd hemp hguard.1
      · exact h8
      · simp only [timeoutCount_append, timeoutCount_frameDropped, h9]
  · exact hinv

/-- The whole tick body preserves the invariant. -/
theorem inv_tickBody (e : Env) (s : ReaderState) (hinv : LoopInv s) :
    LoopInv (tickBody e s).1 :=
  inv_tickFrame e (tickInit e s).1 (inv_tickInit e s hinv)

/-- The polling phase preserves the invariant. -/
theorem inv_pollPhase (e : Env) (s : ReaderState) (hinv : LoopInv s) :
    LoopInv (pollPhase e s) := by
  unfold pollPhase
  split
  · rename_i hs
    exact inv_checkInitMapResponse e.initRecv s hinv hs
  split
  · exact inv_checkFetchGpsResponse e.fetchRecv s hinv
  · exact hinv

/-- One loop iteration preserves the invariant. -/
theorem inv_step (e : Env) (s : ReaderState) (hinv : LoopInv s) :
    LoopInv (step e s).1 := by
  unfold step
  dsimp only
  split
  · exact inv_tickBody e (pollPhase e s) (inv_pollPhase e s hinv)
  · exact inv_pollPhase e s hinv

/-- Every reachable state satisfies the invariant. -/
theorem reachable_inv (s : ReaderState) (h : Reachable s) : LoopInv s := by
  induction h with
  | init files latS lngS metersS => exact inv_initState files latS lngS metersS
  | step s e _ ih => exact inv_step e s ih

/-- Fields `checkInitMapResponse` never writes. -/
theorem checkInit_keeps (r : Option String) (s : ReaderState) :
    (checkInitMapResponse r s).current_frame_index = s.current_frame_index ∧
    (checkInitMapResponse r s).stream_files = s.stream_files ∧
    (checkInitMapResponse r s).init_map_requested = s.init_map_requested ∧
    (checkInitMapResponse r s).lat_s = s.lat_s ∧
    (checkInitMapResponse r s).lng_s = s.lng_s ∧
    (checkInitMapResponse r s).meters_s = s.meters_s := by
  unfold checkInitMapResponse
  split
  · simp
  split
  · simp
  dsimp only
  split <;> simp

/-- Fields `checkFetchGpsResponse` never writes. -/
theorem checkFetch_keeps (r : Option String) (s : ReaderState) :
    (checkFetchGpsResponse r s).current_frame_index = s.current_frame_index ∧
    (checkFetchGpsResponse r s).stream_files = s.stream_files ∧
    (checkFetchGpsResponse r s).session_id = s.session_id ∧
    (checkFetchGpsResponse r s).init_map_requested = s.init_map_requested ∧
    (checkFetchGpsResponse r s).init_open = s.init_open ∧
    (checkFetchGpsResponse r s).lat_s = s.lat_s ∧
    (checkFetchGpsResponse r s).lng_s = s.lng_s ∧
    (checkFetchGpsResponse r s).meters_s = s.meters_s := by
  unfold checkFetchGpsResponse
  split <;> simp

/-- Fields the polling phase never writes. -/
theorem pollPhase_keeps (e : Env) (s : ReaderState) :
    (pollPhase e s).current_frame_index = s.current_frame_index ∧
    (pollPhase e s).stream_files = s.stream_files ∧
    (pollPhase e s).init_map_requested = s.init_map_requested ∧
    (pollPhase e s).lat_s = s.lat_s ∧
    (pollPhase e s).lng_s = s.lng_s ∧
    (pollPhase e s).meters_s = s.meters_s := by
  unfold pollPhase
  split
  · obtain ⟨a, b, c, d, f, g⟩ := checkInit_keeps e.initRecv s
    exact ⟨a, b, c, d, f, g⟩
  split
  · obtain ⟨a, b, _, c, _, d, f, g⟩ := checkFetch_keeps e.fetchRecv s
    exact ⟨a, b, c, d, f, g⟩
  · exact ⟨rfl, rfl, rfl, rfl, rfl, rfl⟩

/-- The polling phase never changes a non-empty session identifier. -/
theorem pollPhase_session_ne (e : Env) (s : ReaderState) (hs : s.session_id ≠ "") :
    (pollPhase e s).session_id = s.session_id := by
  unfold pollPhase
  split
  · rename_i hemp
    exact absurd hemp hs
  split
  · exact (checkFetch_keeps e.fetchRecv s).2.2.1
  · rfl

/-- Fields `sendInitMapRequest` never writes. -/
theorem sendInit_keeps (e : Env) (s : ReaderState) :
    (sendInitMapRequest e s).1.session_id = s.session_id ∧
    (sendInitMapRequest e s).1.localizer_ready = s.localizer_ready ∧
    (sendInitMapRequest e s).1.current_frame_index = s.current_frame_index ∧
    (sendInitMapRequest e s).1.stream_files = s.stream_files ∧
    (sendInitMapRequest e s).1.log = s.log ∧
    (sendInitMapRequest e s).1.fetch_open = s.fetch_open ∧
    (sendInitMapRequest e s).1.fetch_opens = s.fetch_opens ∧
    (sendInitMapRequest e s).1.fetch_closes = s.fetch_closes ∧
    (sendInitMapRequest e s).1.pending_fetch = s.pending_fetch := by
  unfold sendInitMapRequest
  split
  · simp
  split <;> simp

/-- Fields the init block of the tick never writes. -/
theorem tickInit_keeps (e : Env) (s : ReaderState) :
    (tickInit e s).1.session_id = s.session_id ∧
    (tickInit e s).1.localizer_ready = s.localizer_ready ∧
    (tickInit e s).1.current_frame_index = s.current_frame_index ∧
    (tickInit e s).1.stream_files = s.stream_files ∧
    (tickInit e s).1.log = s.log ∧
    (tickInit e s).1.fetch_open = s.fetch_open ∧
    (tickInit e s).1.fetch_opens = s.fetch_opens ∧
    (tickInit e s).1.fetch_closes = s.fetch_closes ∧
    (tickInit e s).1.pending_fetch = s.pending_fetch := by
  unfold tickInit
  split
  · split
    · exact sendInit_keeps e s
    · exact ⟨rfl, rfl, rfl, rfl, rfl, rfl, rfl, rfl, rfl⟩
  · exact ⟨rfl, rfl, rfl, rfl, rfl, rfl, rfl, rfl, rfl⟩

/-- The send-or-drop block never changes the session identifier. -/
theorem tickFrame_session (e : Env) (s : ReaderState) :
    (tickFrame e s).1.session_id = s.session_id := by
  unfold tickFrame
  split
  · split
    · unfold sendFetchGpsRequest
      split
      · rfl
      dsimp only
      split <;> simp
    · simp
  · rfl

/-- A non-empty session identifier survives a whole loop iteration. -/
theorem step_session_ne (e : Env) (s : ReaderState) (hs : s.session_id ≠ "") :
    (step e s).1.session_id = s.session_id := by
  unfold step
  dsimp only
  have hp := pollPhase_session_ne e s hs
  split
  · unfold tickBody
    dsimp only
    rw [tickFrame_session, (tickInit_keeps e (pollPhase e s)).1, hp]
  · exact hp

/-- Cursor movement of the send-or-drop block: plus one exactly when a session
exists and frames remain, whether the frame is sent, skipped on connect
failure, or dropped. -/
theorem tickFrame_cursor (e : Env) (t : ReaderState) :
    (tickFrame e t).1.current_frame_index =
      (if t.session_id ≠ "" ∧ t.current_frame_index < t.stream_files.length
       then t.current_frame_index + 1 else t.current_frame_index) := by
  unfold tickFrame
  split
  · rename_i hg
    split
    · unfold sendFetchGpsRequest
      rw [if_neg (by omega)]
      dsimp only
      split <;> simp
    · simp
  · rfl

/-- The decision events of the send-or-drop block: exactly one, naming the
cursor, when a decision is made. -/
theorem tickFrame_decisions (e : Env) (t : ReaderState) :
    (tickFrame e t).2.filterMap decisionIdx =
      (if t.session_id ≠ "" ∧ t.current_frame_index < t.stream_files.length
       then [t.current_frame_index] else []) := by
  unfold tickFrame
  split
  · rename_i hg
    split
    · unfold sendFetchGpsRequest
      rw [if_neg (by omega)]
      dsimp only
      split <;> simp [decisionIdx]
    · simp [decisionIdx]
  · rfl

/-- The init block emits no decision event and no fetch send. -/
theorem tickInit_evs (e : Env) (s : ReaderState) :
    (tickInit e s).2.filterMap decisionIdx = [] ∧
    sentFetchIn (tickInit e s).2 = false := by
  unfold tickInit sendInitMapRequest
  split
  · split
    · split
      · simp [decisionIdx, sentFetchIn]
      split <;> simp [decisionIdx, sentFetchIn]
    · simp [decisionIdx, sentFetchIn]
  · simp [sentFetchIn]

/-- Cursor movement of a whole loop iteration: plus one exactly on a
send-or-drop decision tick, unchanged otherwise. -/
theorem step_cursor (e : Env) (s : ReaderState) :
    (step e s).1.current_frame_index =
      (if DecisionTick e s then s.current_frame_index + 1
       else s.current_frame_index) := by
  unfold step
  dsimp only
  obtain ⟨hpc, hpf, -, -, -, -⟩ := pollPhase_keeps e s
  by_cases ht : e.tick = true
  · rw [if_pos ht]
    unfold tickBody
    dsimp only
    obtain ⟨ha, -, hc, hd, -, -, -, -, -⟩ := tickInit_keeps e (pollPhase e s)
    rw [tickFrame_cursor, ha, hc, hd, hpc, hpf]
    by_cases hg : (pollPhase e s).session_id ≠ "" ∧
        s.current_frame_index < s.stream_files.length
    · rw [if_pos hg, if_pos ⟨ht, hg.1, hg.2⟩]
    · rw [if_neg hg, if_neg (fun hdec => hg ⟨hdec.2.1, hdec.2.2⟩)]
  · rw [if_neg ht, hpc, if_neg (fun hdec => ht hdec.1)]

/-- Decision events of a whole loop iteration: exactly one, naming the cursor,
on a decision tick; none otherwise. -/
theorem step_decisions (e : Env) (s : ReaderState) :
    (step e s).2.1.filterMap decisionIdx =
      (if DecisionTick e s then [s.current_frame_index] else []) := by
  unfold step
  dsimp only
  obtain ⟨hpc, hpf, -, -, -, -⟩ := pollPhase_keeps e s
  by_cases ht : e.tick = true
  · rw [if_pos ht]
    unfold tickBody
    dsimp only
    rw [List.filterMap_append]
    obtain ⟨ha, -, hc, hd, -, -, -, -, -⟩ := tickInit_keeps e (pollPhase e s)
    rw [(tickInit_evs e (pollPhase e s)).1, tickFrame_decisions, ha, hc, hd, hpc, hpf,
        List.nil_append]
    by_cases hg : (pollPhase e s).session_id ≠ "" ∧
        s.current_frame_index < s.stream_files.length
    · rw [if_pos hg, if_pos ⟨ht, hg.1, hg.2⟩]
    · rw [if_neg hg, if_neg (fun hdec => hg ⟨hdec.2.1, hdec.2.2⟩)]
  · rw [if_neg ht, if_neg (fun hdec => ht hdec.1)]
    rfl

/-- `sentFetchIn` distributes over append. -/
theorem sentFetchIn_append (l l' : List Ev) :
    sentFetchIn (l ++ l') = (sentFetchIn l || sentFetchIn l') := by
  simp [sentFetchIn]

/-- A fetch request goes out only when the localizer is ready after polling,
and sending clears readiness. -/
theorem step_sent_ready (e : Env) (s : ReaderState)
    (hsent : sentFetchIn (step e s).2.1 = true) :
    (pollPhase e s).localizer_ready = true ∧ (step e s).1.localizer_ready = false := by
  unfold step at hsent ⊢
  dsimp only at hsent ⊢
  by_cases ht : e.tick = true
  · rw [if_pos ht] at hsent ⊢
    unfold tickBody at hsent ⊢
    dsimp only at hsent ⊢
    rw [sentFetchIn_append, (tickInit_evs e (pollPhase e s)).2, Bool.false_or] at hsent
    have hkeep := tickInit_keeps e (pollPhase e s)
    unfold tickFrame at hsent ⊢
    by_cases hg : (tickInit e (pollPhase e s)).1.session_id ≠ "" ∧
        (tickInit e (pollPhase e s)).1.current_frame_index <
          (tickInit e (pollPhase e s)).1.stream_files.length
    · rw [if_pos hg] at hsent ⊢
      by_cases hr : (tickInit e (pollPhase e s)).1.localizer_ready = true
      · rw [if_pos hr] at hsent ⊢
        unfold sendFetchGpsRequest at hsent ⊢
        rw [if_neg (by omega)] at hsent ⊢
        dsimp only at hsent ⊢
        by_cases hco : e.fetchConnOk = false
        · rw [if_pos hco] at hsent
          simp [sentFetchIn] at hsent
        · rw [if_neg hco]
          refine ⟨?_, by simp⟩
          rw [← hkeep.2.1]
          exact hr
      · rw [if_neg hr] at hsent
        simp [sentFetchIn] at hsent
    · rw [if_neg hg] at hsent
      simp [sentFetchIn] at hsent
  · rw [if_neg ht] at hsent
    simp [sentFetchIn] at hsent

/-- With a session set and no data on the fetch channel, polling is a no-op. -/
theorem pollPhase_no_data (e : Env) (s : ReaderState)
    (hsess : s.session_id ≠ "") (hrecv : e.fetchRecv = none) :
    pollPhase e s = s := by
  unfold pollPhase
  rw [if_neg hsess]
  split
  · unfold checkFetchGpsResponse
    rw [hrecv]
    split
    · rfl
    · rename_i heq
      split at heq <;> simp_all
  · rfl

/-- With a session set, the init block of the tick is a no-op. -/
theorem tickInit_session_set (e : Env) (s : ReaderState) (hsess : s.session_id ≠ "") :
    tickInit e s = (s, []) := by
  unfold tickInit
  rw [if_neg hsess]

/-- While a fetch exchange is outstanding and no response arrives, readiness
stays false through a whole iteration. -/
theorem step_noresp_ready (e : Env) (s : ReaderState)
    (hsess : s.session_id ≠ "") (hro : s.localizer_ready = false)
    (hrecv : e.fetchRecv = none) :
    (step e s).1.localizer_ready = false := by
  unfold step
  dsimp only
  rw [pollPhase_no_data e s hsess hrecv]
  by_cases ht : e.tick = true
  · rw [if_pos ht]
    unfold tickBody
    dsimp only
    rw [tickInit_session_set e s hsess]
    unfold tickFrame
    dsimp only
    split
    · rw [if_neg (by simp [hro])]
      simpa using hro
    · exact hro
  · rw [if_neg ht]
    exact hro

/-- Variant of the session-delivering tick on which the fetch connect fails. -/
def eSessCF : Env := { eSess with fetchConnOk := false }

/-- A tick on which the init connect fails. -/
def eConnFail : Env :=
  { tick := true, initSockOk := true, initConnOk := false, fetchConnOk := true,
    initRecv := none, fetchRecv := none, elapsedSec := 0 }

/-- A late quiet iteration past the 60-second safety bound. -/
def eLate : Env := { eConnFail with tick := false, elapsedSec := 61 }

/-- After frame 0's response arrives promptly between ticks: ready again with
frame 1 still to process. -/
def tU3 : ReaderState := (step eResp tS2).1

/-- A tick on which the fetch connect fails, past the handshake. -/
def eTickCF : Env := { eInit with fetchConnOk := false, elapsedSec := 3 }

/-- C1: counterexample to the claim as stated.  In this reachable run the
outstanding FetchFrame exchange is for frame 0 (`pending_fetch = some 0`) and
frame 1 was dropped between the send and the receipt; the complete response is
then logged as a `FrameResult` for index 1 — the cursor minus one — not for
frame 0, whose request was the one actually sent. -/
theorem c1_counterexample :
    tS3.pending_fetch = some 0 ∧
    (step eResp tS3).1.log = tS3.log ++ [LogEntry.frameResult 1 gpsResp] ∧
    (1 : Nat) ≠ 0 := by decide

/-- C1 (amended): on a complete FetchFrame response the client sets Readiness
true, closes the fetch channel, and appends exactly one `FrameResult` entry,
but the entry's index is the current cursor minus one — which names the frame
whose request was sent only when no frame was consumed in between. -/
theorem c1_frame_result_logging (e : Env) (s : ReaderState) (payload : String)
    (hsess : s.session_id ≠ "") (hro : s.localizer_ready = false)
    (hfo : s.fetch_open = true) (hrecv : e.fetchRecv = some payload)
    (ht : e.tick = false) :
    (step e s).1.localizer_ready = true ∧
    (step e s).1.fetch_open = false ∧
    (step e s).1.fetch_closes = s.fetch_closes + 1 ∧
    (step e s).1.log =
      s.log ++ [LogEntry.frameResult (s.current_frame_index - 1) payload] := by
  unfold step
  dsimp only
  rw [if_neg (by simp [ht])]
  unfold pollPhase
  rw [if_neg hsess, if_pos hro]
  unfold checkFetchGpsResponse
  simp [hfo, hrecv]

/-- Witness for the amended C1 on the concrete two-frame run. -/
theorem c1_frame_result_logging_witness :
    (step eResp tS2).1.localizer_ready = true ∧
    (step eResp tS2).1.fetch_open = false ∧
    (step eResp tS2).1.fetch_closes = tS2.fetch_closes + 1 ∧
    (step eResp tS2).1.log =
      tS2.log ++ [LogEntry.frameResult (tS2.current_frame_index - 1) gpsResp] :=
  c1_frame_result_logging eResp tS2 gpsResp (by decide) (by decide) (by decide)
    (by decide) (by decide)

/-- C2: single-flight invariant.  In every reachable state the number of open
fetch sockets (`fetch_opens - fetch_closes`) is at most one and remains so
after a step; a FetchFrame request goes out only when Readiness is true after
polling and sending clears Readiness; and while a fetch exchange is
outstanding Readiness turns true only when that exchange's response is
delivered. -/
theorem c2_single_flight (e : Env) (s : ReaderState) (h : Reachable s) :
    s.fetch_opens ≤ s.fetch_closes + 1 ∧
    s.fetch_closes ≤ s.fetch_opens ∧
    (step e s).1.fetch_opens ≤ (step e s).1.fetch_closes + 1 ∧
    (sentFetchIn (step e s).2.1 = true →
      (pollPhase e s).localizer_ready = true ∧
      (step e s).1.localizer_ready = false) ∧
    (s.fetch_open = true → (step e s).1.localizer_ready = true →
      ∃ p, e.fetchRecv = some p) := by
  have hinv := reachable_inv s h
  have hinv' := inv_step e s hinv
  obtain ⟨-, h2, h3, h4, h5, -, h7, -, -⟩ := hinv
  refine ⟨h3, h2, hinv'.2.2.1, step_sent_ready e s, ?_⟩
  intro hfo hrdy
  cases hp : e.fetchRecv with
  | some p => exact ⟨p, rfl⟩
  | none =>
    have hsess : s.session_id ≠ "" := by
      intro hemp
      rw [(h7 hemp).2] at hfo
      exact Bool.false_ne_true hfo
    have hro : s.localizer_ready = false := by
      by_cases hb : s.localizer_ready = true
      · rw [h5 hb] at hfo
        exact absurd hfo Bool.false_ne_true
      · simpa using hb
    rw [step_noresp_ready e s hsess hro hp] at hrdy
    exact absurd hrdy Bool.false_ne_true

/-- Witness for C2 at the reachable state with frame 0 outstanding. -/
theorem c2_single_flight_witness :
    tS2.fetch_opens ≤ tS2.fetch_closes + 1 ∧
    tS2.fetch_closes ≤ tS2.fetch_opens ∧
    (step eDrop tS2).1.fetch_opens ≤ (step eDrop tS2).1.fetch_closes + 1 ∧
    (sentFetchIn (step eDrop tS2).2.1 = true →
      (pollPhase eDrop tS2).localizer_ready = true ∧
      (step eDrop tS2).1.localizer_ready = false) ∧
    (tS2.fetch_open = true → (step eDrop tS2).1.localizer_ready = true →
      ∃ p, eDrop.fetchRecv = some p) :=
  c2_single_flight eDrop tS2
    (Reachable.step tS1 eSess (Reachable.step tS0 eInit
      (Reachable.init trFiles ("50.416200") ("30.890600") ("1000"))))

/-- C3: counterexample to the claim as stated.  On this reachable run the
decision tick consumes index 0, the cursor advances to 1, yet no FetchFrame
request was sent (the fetch connect failed) and the log records no drop for
index 0 — it holds only the start and session lines — so index 0 is consumed
neither as a sent request nor as a logged drop. -/
theorem c3_counterexample :
    (step eSessCF tS1).1.current_frame_index = 1 ∧
    (step eSessCF tS1).2.1.filterMap decisionIdx = [0] ∧
    sentFetchIn (step eSessCF tS1).2.1 = false ∧
    (step eSessCF tS1).1.log = [LogEntry.started, LogEntry.sessionInit ("s1")] := by
  decide

/-- The send-or-drop block never changes the catalog. -/
theorem tickFrame_files (e : Env) (s : ReaderState) :
    (tickFrame e s).1.stream_files = s.stream_files := by
  unfold tickFrame
  split
  · split
    · unfold sendFetchGpsRequest
      split
      · rfl
      dsimp only
      split <;> simp
    · simp
  · rfl

/-- A loop iteration never changes the catalog. -/
theorem step_files (e : Env) (s : ReaderState) :
    (step e s).1.stream_files = s.stream_files := by
  unfold step
  dsimp only
  have hp := (pollPhase_keeps e s).2.1
  split
  · unfold tickBody
    dsimp only
    rw [tickFrame_files, (tickInit_keeps e (pollPhase e s)).2.2.2.1, hp]
  · exact hp

/-- C3 (amended): the cursor starts at 0, never exceeds the catalog size N in
a reachable state, advances by exactly one per send-or-drop decision tick and
is unchanged otherwise, and reaches N exactly once: the catalog is fixed
across iterations, once the cursor equals N it never moves again, the
clean-drain exit occurs only with the cursor at N, and conversely fires as
soon as the cursor is at N with the session set and readiness true.  Each
decision tick consumes exactly one index — the cursor — as a sent request, a
logged drop, or a silent skip when the fetch connect fails. -/
theorem c3_cursor_monotone (files : List String) (latS lngS metersS : String)
    (e : Env) (s : ReaderState) (h : Reachable s) :
    (initState files latS lngS metersS).current_frame_index = 0 ∧
    s.current_frame_index ≤ s.stream_files.length ∧
    (step e s).1.stream_files = s.stream_files ∧
    (step e s).1.current_frame_index =
      (if DecisionTick e s then s.current_frame_index + 1
       else s.current_frame_index) ∧
    (step e s).2.1.filterMap decisionIdx =
      (if DecisionTick e s then [s.current_frame_index] else []) ∧
    (s.current_frame_index = s.stream_files.length →
      (step e s).1.current_frame_index = s.current_frame_index) ∧
    ((step e s).2.2 = some ExitReason.cleanDrain →
      (step e s).1.current_frame_index = (step e s).1.stream_files.length) ∧
    ((step e s).1.session_id ≠ "" →
      (step e s).1.stream_files.length ≤ (step e s).1.current_frame_index →
      (step e s).1.localizer_ready = true →
      (step e s).2.2 = some ExitReason.cleanDrain) := by
  refine ⟨rfl, (reachable_inv s h).1, step_files e s, step_cursor e s,
    step_decisions e s, ?_, ?_, ?_⟩
  · intro hN
    rw [step_cursor, if_neg (fun hd => absurd hd.2.2 (by omega))]
  · intro hcd
    have hc : exitCheck e (step e s).1 = some ExitReason.cleanDrain := hcd
    have hinv' := inv_step e s (reachable_inv s h)
    unfold exitCheck at hc
    by_cases hcond : ((step e s).1.session_id ≠ "" ∧
        (step e s).1.stream_files.length ≤ (step e s).1.current_frame_index ∧
        (step e s).1.localizer_ready = true)
    · exact Nat.le_antisymm hinv'.1 hcond.2.1
    · rw [if_neg hcond] at hc
      split at hc <;> simp_all
  · intro h1 h2 h3
    show exitCheck e (step e s).1 = some ExitReason.cleanDrain
    unfold exitCheck
    rw [if_pos ⟨h1, h2, h3⟩]

/-- Witness for the amended C3 at a reachable mid-stream state. -/
theorem c3_cursor_monotone_witness :
    (initState trFiles ("50.416200") ("30.890600") ("1000")).current_frame_index = 0 ∧
    tS2.current_frame_index ≤ tS2.stream_files.length ∧
    (step eDrop tS2).1.stream_files = tS2.stream_files ∧
    (step eDrop tS2).1.current_frame_index =
      (if DecisionTick eDrop tS2 then tS2.current_frame_index + 1
       else tS2.current_frame_index) ∧
    (step eDrop tS2).2.1.filterMap decisionIdx =
      (if DecisionTick eDrop tS2 then [tS2.current_frame_index] else []) ∧
    (tS2.current_frame_index = tS2.stream_files.length →
      (step eDrop tS2).1.current_frame_index = tS2.current_frame_index) ∧
    ((step eDrop tS2).2.2 = some ExitReason.cleanDrain →
      (step eDrop tS2).1.current_frame_index = (step eDrop tS2).1.stream_files.length) ∧
    ((step eDrop tS2).1.session_id ≠ "" →
      (step eDrop tS2).1.stream_files.length ≤ (step eDrop tS2).1.current_frame_index →
      (step eDrop tS2).1.localizer_ready = true →
      (step eDrop tS2).2.2 = some ExitReason.cleanDrain) :=
  c3_cursor_monotone trFiles ("50.416200") ("30.890600") ("1000") eDrop tS2
    (Reachable.step tS1 eSess (Reachable.step tS0 eInit
      (Reachable.init trFiles ("50.416200") ("30.890600") ("1000"))))

/-- C4: counterexample to the claim as stated.  A run in which the remote
never listens exits through the 60-second safety bound, yet the outcome log
contains zero `Timeout` entries — the timeout is narrated on stdout only — so
the claimed single Timeout log entry is absent. -/
theorem c4_counterexample :
    (runLoop [eConnFail, eLate] tS0).2.2 = some (ExitReason.watchdog 61) ∧
    timeoutCount (runLoop [eConnFail, eLate] tS0).1.log = 0 := by decide

/-- C4 (amended): when the 60-second bound has elapsed and clean drain has not
been reached, the iteration exits with a watchdog exit carrying the elapsed
seconds (reported on the console, without the frames remaining), no `Timeout`
entry is appended to the outcome log, and the process exit code is 0. -/
theorem c4_watchdog_exit (e : Env) (s : ReaderState) (envs : List Env)
    (h : Reachable s)
    (hnc : ¬((step e s).1.session_id ≠ "" ∧
      (step e s).1.stream_files.length ≤ (step e s).1.current_frame_index ∧
      (step e s).1.localizer_ready = true))
    (hw : 60 < e.elapsedSec) :
    (step e s).2.2 = some (ExitReason.watchdog e.elapsedSec) ∧
    timeoutCount (step e s).1.log = 0 ∧
    mainExitCode envs s.stream_files s.lat_s s.lng_s s.meters_s = 0 := by
  refine ⟨?_, (inv_step e s (reachable_inv s h)).2.2.2.2.2.2.2.2, rfl⟩
  show exitCheck e (step e s).1 = some (ExitReason.watchdog e.elapsedSec)
  unfold exitCheck
  rw [if_neg hnc, if_pos hw]

/-- Witness for the amended C4 on the first quiet iteration past the bound. -/
theorem c4_watchdog_exit_witness :
    (step eLate tS0).2.2 = some (ExitReason.watchdog eLate.elapsedSec) ∧
    timeoutCount (step eLate tS0).1.log = 0 ∧
    mainExitCode [] tS0.stream_files tS0.lat_s tS0.lng_s tS0.meters_s = 0 :=
  c4_watchdog_exit eLate tS0 []
    (Reachable.init trFiles ("50.416200") ("30.890600") ("1000"))
    (by decide) (by decide)

/-- Modelled from the spec: a 4-byte length field left-padded with spaces
("4 bytes, left-padded with spaces, representing the UTF-8 byte length of the
payload"), for comparison with the code's `sizeStr4`. -/
def leftPad4 (byteLen : Nat) : List Char :=
  List.replicate (4 - (decDigits byteLen).length) ' ' ++ decDigits byteLen

/-- C5: counterexample to the claim as stated.  For the concrete 40-byte
payload the code transmits the digits first and the spaces after
(`['4','0',' ',' ']`), not the left-padded field (`[' ',' ','4','0']`) the
claim describes. -/
theorem c5_counterexample :
    sizeStr4 ((fetchRequest ("s1") ("a.jpg")).utf8ByteSize) = ['4', '0', ' ', ' '] ∧
    sizeStr4 ((fetchRequest ("s1") ("a.jpg")).utf8ByteSize) ≠
      leftPad4 ((fetchRequest ("s1") ("a.jpg")).utf8ByteSize) := by decide

/-- C5 (amended): every FetchFrame request is transmitted as a 4-byte ASCII
length field — the decimal UTF-8 byte length of the JSON payload followed by
space padding to width 4 (right-padded, not left-padded) — followed by the
payload, while the Init request goes out as the bare JSON with no length
field. -/
theorem c5_wire_framing (sid path : String) (e : Env) (s : ReaderState)
    (hlen : (fetchRequest sid path).utf8ByteSize ≤ 9999)
    (hsess : s.session_id = "") (hreq : s.init_map_requested = false)
    (hio : s.init_open = false) (ht : e.tick = true)
    (hso : e.initSockOk = true) (hco : e.initConnOk = true) :
    fetchWire sid path =
      String.mk (decDigits (fetchRequest sid path).utf8ByteSize ++
          List.replicate
            (4 - (decDigits (fetchRequest sid path).utf8ByteSize).length) ' ') ++
        fetchRequest sid path ∧
    (step e s).2.1 = [Ev.initSent (initRequest s.lat_s s.lng_s s.meters_s)] := by
  constructor
  · unfold fetchWire
    rw [sizeStr4_of_le _ hlen]
  · unfold step
    dsimp only
    rw [if_pos ht]
    have hpoll : pollPhase e s = s := by
      unfold pollPhase
      rw [if_pos hsess]
      unfold checkInitMapResponse
      rw [if_pos hio]
    rw [hpoll]
    unfold tickBody
    dsimp only
    unfold tickInit
    rw [if_pos hsess, if_pos hreq]
    unfold sendInitMapRequest
    rw [if_neg (by simp [hso]), if_neg (by simp [hco])]
    dsimp only
    unfold tickFrame
    rw [if_neg (fun hg => hg.1 hsess)]
    rfl

/-- Witness for the amended C5 at the constructor state. -/
theorem c5_wire_framing_witness :
    fetchWire ("s1") ("a.jpg") =
      String.mk (decDigits (fetchRequest ("s1") ("a.jpg")).utf8ByteSize ++
          List.replicate
            (4 - (decDigits (fetchRequest ("s1") ("a.jpg")).utf8ByteSize).length) ' ') ++
        fetchRequest ("s1") ("a.jpg") ∧
    (step eInit tS0).2.1 = [Ev.initSent (initRequest tS0.lat_s tS0.lng_s tS0.meters_s)] :=
  c5_wire_framing ("s1") ("a.jpg") eInit tS0 (by decide) (by decide) (by decide)
    (by decide) (by decide) (by decide) (by decide)

/-- C6: once the session identifier is non-empty in a reachable state, a loop
iteration never changes it, and the init channel is already closed, so no
further Init response can be read. -/
theorem c6_session_immutable (e : Env) (s : ReaderState) (h : Reachable s)
    (hsess : s.session_id ≠ "") :
    (step e s).1.session_id = s.session_id ∧ s.init_open = false :=
  ⟨step_session_ne e s hsess, (reachable_inv s h).2.2.2.2.2.2.2.1 hsess⟩

/-- Witness for C6 at the reachable post-handshake state. -/
theorem c6_session_immutable_witness :
    (step eDrop tS2).1.session_id = tS2.session_id ∧ tS2.init_open = false :=
  c6_session_immutable eDrop tS2
    (Reachable.step tS1 eSess (Reachable.step tS0 eInit
      (Reachable.init trFiles ("50.416200") ("30.890600") ("1000"))))
    (by decide)

/-- C7: counterexample to the claim as stated.  On this reachable run the
fetch connect for frame 1 fails: the frame is consumed (cursor 1 to 2) and the
failure is reported only as a console event — the outcome log is unchanged, so
the error is not surfaced as a log entry as the claim states. -/
theorem c7_counterexample :
    tU3.localizer_ready = true ∧ tU3.current_frame_index = 1 ∧
    (step eTickCF tU3).1.current_frame_index = 2 ∧
    (step eTickCF tU3).1.log = tU3.log ∧
    (step eTickCF tU3).2.1 = [Ev.fetchConnFail 1] := by decide

/-- C7 (amended): when connecting the fetch channel for a frame fails, the
frame is skipped without retry (the cursor advances past it and readiness
stays true, so the next tick moves to the next frame), the error is surfaced
only as a console event with no outcome-log entry, and the loop does not
terminate abnormally — the iteration ends either still running or in a normal
clean drain. -/
theorem c7_fetch_connect_failure (e : Env) (s : ReaderState)
    (hsess : s.session_id ≠ "") (hr : s.localizer_ready = true)
    (hcur : s.current_frame_index < s.stream_files.length)
    (ht : e.tick = true) (hcf : e.fetchConnOk = false)
    (he : e.elapsedSec ≤ 60) :
    (step e s).1.current_frame_index = s.current_frame_index + 1 ∧
    (step e s).1.localizer_ready = true ∧
    (step e s).1.log = s.log ∧
    (step e s).2.1 = [Ev.fetchConnFail s.current_frame_index] ∧
    ((step e s).2.2 = none ∨ (step e s).2.2 = some ExitReason.cleanDrain) := by
  have hpoll : pollPhase e s = s := by
    unfold pollPhase
    rw [if_neg hsess, if_neg (by simp [hr])]
  have hbody : tickBody e s =
      ({ s with current_frame_index := s.current_frame_index + 1,
                fetch_opens := s.fetch_opens + 1,
                fetch_closes := s.fetch_closes + 1 },
       [Ev.fetchConnFail s.current_frame_index]) := by
    unfold tickBody
    dsimp only
    rw [tickInit_session_set e s hsess]
    unfold tickFrame
    dsimp only
    rw [if_pos ⟨hsess, hcur⟩, if_pos hr]
    unfold sendFetchGpsRequest
    rw [if_neg (by omega)]
    dsimp only
    rw [if_pos hcf]
    rfl
  unfold step
  dsimp only
  rw [if_pos ht, hpoll, hbody]
  refine ⟨rfl, hr, rfl, rfl, ?_⟩
  unfold exitCheck
  dsimp only
  split
  · right
    rfl
  · rw [if_neg (by omega)]
    left
    rfl

/-- Witness for the amended C7 on the concrete run. -/
theorem c7_fetch_connect_failure_witness :
    (step eTickCF tU3).1.current_frame_index = tU3.current_frame_index + 1 ∧
    (step eTickCF tU3).1.localizer_ready = true ∧
    (step eTickCF tU3).1.log = tU3.log ∧
    (step eTickCF tU3).2.1 = [Ev.fetchConnFail tU3.current_frame_index] ∧
    ((step eTickCF tU3).2.2 = none ∨
      (step eTickCF tU3).2.2 = some ExitReason.cleanDrain) :=
  c7_fetch_connect_failure eTickCF tU3 (by decide) (by decide) (by decide)
    (by decide) (by decide) (by decide)

/-- On a tick with no session, no outstanding init request and a working
remote, the iteration emits exactly the bare init request. -/
theorem step_init_send (e : Env) (s : ReaderState)
    (hsess : s.session_id = "") (hio : s.init_open = false)
    (hreq : s.init_map_requested = false) (ht : e.tick = true)
    (hso : e.initSockOk = true) (hco : e.initConnOk = true) :
    (step e s).2.1 = [Ev.initSent (initRequest s.lat_s s.lng_s s.meters_s)] := by
  unfold step
  dsimp only
  rw [if_pos ht]
  have hpoll : pollPhase e s = s := by
    unfold pollPhase
    rw [if_pos hsess]
    unfold checkInitMapResponse
    rw [if_pos hio]
  rw [hpoll]
  unfold tickBody
  dsimp only
  unfold tickInit
  rw [if_pos hsess, if_pos hreq]
  unfold sendInitMapRequest
  rw [if_neg (by simp [hso]), if_neg (by simp [hco])]
  dsimp only
  unfold tickFrame
  rw [if_neg (fun hg => hg.1 hsess)]
  rfl

/-- C8: after an init connect failure the handshake is back in the NotStarted
shape (request flag cleared, channel closed, session still unset) and the next
eligible tick reissues the init request; and while an init request is
outstanding, a tick issues no duplicate — the iteration leaves the state
untouched and sends nothing. -/
theorem c8_init_retry (e eR eW : Env) (s s2 : ReaderState)
    (hsess : s.session_id = "") (hio : s.init_open = false)
    (hreq : s.init_map_requested = false)
    (ht : e.tick = true) (hso : e.initSockOk = true) (hcf : e.initConnOk = false)
    (hRt : eR.tick = true) (hRso : eR.initSockOk = true) (hRco : eR.initConnOk = true)
    (h2sess : s2.session_id = "") (h2req : s2.init_map_requested = true)
    (h2io : s2.init_open = true) (hWr : eW.initRecv = none) (hWt : eW.tick = true) :
    (step e s).1.init_map_requested = false ∧
    (step e s).1.init_open = false ∧
    (step e s).1.session_id = "" ∧
    sentInitIn (step eR (step e s).1).2.1 = true ∧
    (step eW s2).1 = s2 ∧
    sentInitIn (step eW s2).2.1 = false := by
  have hpoll : pollPhase e s = s := by
    unfold pollPhase
    rw [if_pos hsess]
    unfold checkInitMapResponse
    rw [if_pos hio]
  have hbody : tickBody e s =
      ({ s with init_open := false, init_map_requested := false },
       [Ev.initConnFail]) := by
    unfold tickBody
    dsimp only
    unfold tickInit
    rw [if_pos hsess, if_pos hreq]
    unfold sendInitMapRequest
    rw [if_neg (by simp [hso]), if_pos hcf]
    dsimp only
    unfold tickFrame
    rw [if_neg (fun hg => hg.1 hsess)]
    rfl
  have hA1 : (step e s).1 = { s with init_open := false, init_map_requested := false } := by
    unfold step
    dsimp only
    rw [if_pos ht, hpoll, hbody]
  have hsendR : (step eR (step e s).1).2.1 =
      [Ev.initSent (initRequest s.lat_s s.lng_s s.meters_s)] := by
    rw [hA1]
    exact step_init_send eR _ hsess rfl rfl hRt hRso hRco
  have hWpoll : pollPhase eW s2 = s2 := by
    unfold pollPhase
    rw [if_pos h2sess]
    unfold checkInitMapResponse
    rw [if_neg (by simp [h2io]), hWr]
  have hWbody : tickBody eW s2 = (s2, [Ev.initWait]) := by
    unfold tickBody
    dsimp only
    unfold tickInit
    rw [if_pos h2sess, if_neg (by simp [h2req])]
    dsimp only
    unfold tickFrame
    rw [if_neg (fun hg => hg.1 h2sess)]
    rfl
  have hW : (step eW s2).1 = s2 ∧ (step eW s2).2.1 = [Ev.initWait] := by
    unfold step
    dsimp only
    rw [if_pos hWt, hWpoll, hWbody]
    exact ⟨rfl, rfl⟩
  refine ⟨by rw [hA1], by rw [hA1], ?_, ?_, hW.1, ?_⟩
  · rw [hA1]
    exact hsess
  · rw [hsendR]
    rfl
  · rw [hW.2]
    rfl

/-- Witness for C8 on the concrete never-listening-then-listening run. -/
theorem c8_init_retry_witness :
    (step eConnFail tS0).1.init_map_requested = false ∧
    (step eConnFail tS0).1.init_open = false ∧
    (step eConnFail tS0).1.session_id = "" ∧
    sentInitIn (step eInit (step eConnFail tS0).1).2.1 = true ∧
    (step eDrop tS1).1 = tS1 ∧
    sentInitIn (step eDrop tS1).2.1 = false :=
  c8_init_retry eConnFail eInit eDrop tS0 tS1 (by decide) (by decide) (by decide)
    (by decide) (by decide) (by decide) (by decide) (by decide) (by decide)
    (by decide) (by decide) (by decide) (by decide) (by decide)

/-- A response in which the session key is absent. -/
def noKeyResp : String := "\x7b\"ok\": 1\x7d"

/-- A quiet iteration delivering the malformed init response. -/
def eNoKey : Env := { eInit with tick := false, initRecv := some noKeyResp }

/-- C9: when the session identifier cannot be extracted from an init response
(key absent or closing quote missing), the iteration leaves the session unset,
the init channel open and awaiting, and appends nothing to the log — it does
not crash. -/
theorem c9_malformed_init (e : Env) (s : ReaderState) (resp : String)
    (hsess : s.session_id = "") (hio : s.init_open = true)
    (hrecv : e.initRecv = some resp) (hx : extractSessionId resp = none)
    (ht : e.tick = false) :
    (step e s).1.session_id = "" ∧
    (step e s).1.init_open = true ∧
    (step e s).1.init_map_requested = s.init_map_requested ∧
    (step e s).1.log = s.log := by
  unfold step
  dsimp only
  rw [if_neg (by simp [ht])]
  unfold pollPhase
  rw [if_pos hsess]
  unfold checkInitMapResponse
  rw [if_neg (by simp [hio]), hrecv]
  dsimp only
  rw [hx]
  dsimp only
  rw [if_pos hsess]
  exact ⟨hsess, hio, rfl, rfl⟩

/-- Witness for C9 on a concrete key-less response. -/
theorem c9_malformed_init_witness :
    (step eNoKey tS1).1.session_id = "" ∧
    (step eNoKey tS1).1.init_open = true ∧
    (step eNoKey tS1).1.init_map_requested = tS1.init_map_requested ∧
    (step eNoKey tS1).1.log = tS1.log :=
  c9_malformed_init eNoKey tS1 noKeyResp (by decide) (by decide) (by decide)
    (by decide) (by decide)

/-- C10: the 4-character size field is the decimal digits of the payload byte
length followed by space padding whenever the length is at most 9999; for
lengths of 10000 or more it is the decimal representation truncated to its
first 4 digits, which no longer equals the digits of the length. -/
theorem c10_size_field (p : String) :
    (p.utf8ByteSize ≤ 9999 →
      sizeStr4 p.utf8ByteSize =
        decDigits p.utf8ByteSize ++
          List.replicate (4 - (decDigits p.utf8ByteSize).length) ' ') ∧
    (10000 ≤ p.utf8ByteSize →
      sizeStr4 p.utf8ByteSize = (decDigits p.utf8ByteSize).take 4 ∧
      sizeStr4 p.utf8ByteSize ≠ decDigits p.utf8ByteSize) :=
  ⟨fun h => sizeStr4_of_le _ h, fun h => sizeStr4_of_ge _ h⟩

/-- Witness for C10 on a concrete 2-byte payload. -/
theorem c10_size_field_witness :
    sizeStr4 (("ab").utf8ByteSize) =
      decDigits (("ab").utf8ByteSize) ++
        List.replicate (4 - (decDigits (("ab").utf8ByteSize)).length) ' ' :=
  (c10_size_field ("ab")).1 (by decide)
